import Mathlib

/-
Verification of the tunnel-optimization core: the analytical performance
model (src/models/network_optimization.py) and the reinforcement-learning
controller's pure parts (src/models/reinforcement_learning.py).

Numeric convention: Python floats are modelled as real numbers.  Total
real-valued definitions use mathematical division (division by zero yields
0 in Lean); wherever Python would raise (ZeroDivisionError, IndexError,
KeyError) a separate Option-valued definition returns none at exactly the
guard conditions under which Python raises.
-/

namespace Tunneling

noncomputable section

/-- Parameters describing the network conditions
(dataclass NetworkParameters, network_optimization.py lines 33-42).
Integer-typed fields of the dataclass (mtu, buffer_size, packet_size)
are modelled as integers, float fields as reals. -/
structure NetworkParameters where
  b_local : ℝ
  b_ec2 : ℝ
  l_propagation : ℝ
  mtu : ℤ
  buffer_size : ℤ
  packet_size : ℤ
  congestion_level : ℝ

/-- Calculated network performance metrics
(dataclass NetworkMetrics, network_optimization.py lines 44-52). -/
structure NetworkMetrics where
  effective_throughput : ℝ
  total_latency : ℝ
  packet_loss : ℝ
  queue_length : ℝ
  utilization : ℝ
  score : ℝ

/-- Line 95: packet_size_bits = params.packet_size * 8. -/
def packet_size_bits (p : NetworkParameters) : ℝ := (p.packet_size : ℝ) * 8

/-- Line 98: arrival_rate = (params.b_local * 1e9) / packet_size_bits. -/
def arrival_rate (p : NetworkParameters) : ℝ := p.b_local * 1e9 / packet_size_bits p

/-- Line 101: service_rate = (params.b_ec2 * 1e9) / packet_size_bits. -/
def service_rate (p : NetworkParameters) : ℝ := p.b_ec2 * 1e9 / packet_size_bits p

/-- Lines 104-108: utilization = arrival_rate / service_rate, capped at 0.99
when it is greater than or equal to 1. -/
def utilizationOf (p : NetworkParameters) : ℝ :=
  if 1 ≤ arrival_rate p / service_rate p then 0.99 else arrival_rate p / service_rate p

/-- Line 111: queue_length = utilization / (1 - utilization). -/
def queue_lengthOf (p : NetworkParameters) : ℝ := utilizationOf p / (1 - utilizationOf p)

/-- Line 114: service_time_ms = 1000.0 / service_rate. -/
def service_time_ms (p : NetworkParameters) : ℝ := 1000 / service_rate p

/-- Line 115: queueing_delay = queue_length * service_time_ms. -/
def queueing_delay (p : NetworkParameters) : ℝ := queue_lengthOf p * service_time_ms p

/-- Line 121: transmission_delay = (params.mtu * 8) / (params.b_local * 1e9) * 1000. -/
def transmission_delay (p : NetworkParameters) : ℝ :=
  (p.mtu : ℝ) * 8 / (p.b_local * 1e9) * 1000

/-- Line 124: total_latency = l_propagation + queueing_delay + processing_delay
(the constant 1 ms from line 118) + transmission_delay. -/
def total_latencyOf (p : NetworkParameters) : ℝ :=
  p.l_propagation + queueing_delay p + 1 + transmission_delay p

/-- Line 129: effective_buffer = params.buffer_size * (1 - params.congestion_level). -/
def effective_buffer (p : NetworkParameters) : ℝ :=
  (p.buffer_size : ℝ) * (1 - p.congestion_level)

/-- Lines 132-138: buffer-overflow packet loss.  1.0 when the effective
buffer is empty; otherwise utilization ** effective_buffer * (1 - utilization)
when utilization < 1, else 0.5.  The Python float ** is real rpow here. -/
def packet_loss_raw (p : NetworkParameters) : ℝ :=
  if effective_buffer p ≤ 0 then 1
  else if utilizationOf p < 1 then
    utilizationOf p ^ effective_buffer p * (1 - utilizationOf p)
  else 0.5

/-- Lines 141-142: packet_loss = min(packet_loss + congestion_level**2 * 0.1, 1.0). -/
def packet_lossOf (p : NetworkParameters) : ℝ :=
  min (packet_loss_raw p + p.congestion_level ^ (2 : ℕ) * 0.1) 1

/-- Line 145: effective_throughput = b_local * (1 - packet_loss)
(before the final clip at line 163). -/
def effective_throughputOf (p : NetworkParameters) : ℝ :=
  p.b_local * (1 - packet_lossOf p)

/-- Line 149: throughput_score = min(effective_throughput / 0.0015, 1.0). -/
def throughput_score (p : NetworkParameters) : ℝ :=
  min (effective_throughputOf p / 0.0015) 1

/-- Line 150: latency_score = max(0, 1 - total_latency / 150.0). -/
def latency_score (p : NetworkParameters) : ℝ :=
  max 0 (1 - total_latencyOf p / 150)

/-- Line 151: loss_score = 1 - packet_loss / 0.01 (note: not clamped). -/
def loss_score (p : NetworkParameters) : ℝ := 1 - packet_lossOf p / 0.01

/-- Lines 154-158: score = 0.5 * throughput_score + 0.3 * latency_score
+ 0.2 * loss_score, using the weights dict fixed in __init__ (lines 68-72). -/
def scoreOf (p : NetworkParameters) : ℝ :=
  0.5 * throughput_score p + 0.3 * latency_score p + 0.2 * loss_score p

/-- NetworkOptimizer.calculate_metrics (lines 84-172), with the final
clips of lines 160-163 applied to the returned fields: packet_loss is
clipped to [0,1], total_latency to at least l_propagation, and
effective_throughput to [0, b_local]. -/
def calculate_metrics (p : NetworkParameters) : NetworkMetrics :=
  { effective_throughput := min (max (effective_throughputOf p) 0) p.b_local
    total_latency := max (total_latencyOf p) p.l_propagation
    packet_loss := min (max (packet_lossOf p) 0) 1
    queue_length := queue_lengthOf p
    utilization := utilizationOf p
    score := scoreOf p }

/-- The calculate_metrics computation with Python division semantics made
explicit: each guard is a division site in the source at which Python
raises ZeroDivisionError when the denominator is zero (line 98/101:
packet_size_bits; line 104/114: service_rate; line 111: 1 - utilization;
line 121: b_local * 1e9).  Off the guards the result is exactly
calculate_metrics. -/
def calculate_metricsE (p : NetworkParameters) : Option NetworkMetrics :=
  if packet_size_bits p = 0 then none
  else if service_rate p = 0 then none
  else if 1 - utilizationOf p = 0 then none
  else if p.b_local * 1e9 = 0 then none
  else some (calculate_metrics p)

/-- Line 185: mtu_values = [1280, 1380, 1420, 1480]. -/
def mtu_values : List ℤ := [1280, 1380, 1420, 1480]

/-- Line 186: buffer_sizes = [100, 500, 1000, 1500, 2000]. -/
def buffer_sizes : List ℤ := [100, 500, 1000, 1500, 2000]

/-- The grid iterated by the two nested loops of lines 193-194, outer loop
over mtu_values, inner over buffer_sizes. -/
def gridPairs : List (ℤ × ℤ) :=
  mtu_values.flatMap fun mtu => buffer_sizes.map fun b => (mtu, b)

/-- Lines 195-203: the candidate configuration built for a grid point,
copying b_local, b_ec2, l_propagation and congestion_level from the
optimizer's current parameters and setting
packet_size = min(mtu - 20, 1400). -/
def testParams (cur : NetworkParameters) (mtu buf : ℤ) : NetworkParameters :=
  { b_local := cur.b_local
    b_ec2 := cur.b_ec2
    l_propagation := cur.l_propagation
    mtu := mtu
    buffer_size := buf
    packet_size := min (mtu - 20) 1400
    congestion_level := cur.congestion_level }

/-- One iteration of the loop body (lines 205-212): evaluate the metrics
of the grid point and replace the running best exactly when
metrics.score > best_score.  The evaluated_configs log (line 206) is a
diagnostic side effect and is not modelled. -/
def gridStep (cur : NetworkParameters)
    (st : ℝ × Option (NetworkParameters × NetworkMetrics)) (mb : ℤ × ℤ) :
    ℝ × Option (NetworkParameters × NetworkMetrics) :=
  if st.1 < (calculate_metrics (testParams cur mb.1 mb.2)).score then
    ((calculate_metrics (testParams cur mb.1 mb.2)).score,
      some (testParams cur mb.1 mb.2, calculate_metrics (testParams cur mb.1 mb.2)))
  else st

/-- NetworkOptimizer.optimize_parameters (lines 174-223): grid search
starting from best_score = -1 and best_params = None, falling back to the
current parameters and their metrics when no grid point scored
strictly above -1 (lines 218-221). -/
def optimize_parameters (cur : NetworkParameters) :
    NetworkParameters × NetworkMetrics :=
  match (gridPairs.foldl (gridStep cur) ((-1 : ℝ), none)).2 with
  | some pm => pm
  | none => (cur, calculate_metrics cur)

/-- RoutingAgent.calculate_reward, lines 344-350: base reward, with
throughput in Mbps (effective_throughput * 1000), latency in ms and
packet loss in percent (packet_loss * 100), each normalized and capped. -/
def base_reward (metrics : NetworkMetrics) : ℝ :=
  0.5 * min (metrics.effective_throughput * 1000 / 1.5) 5 -
  0.3 * min (metrics.total_latency / 100) 3 -
  0.2 * min (metrics.packet_loss * 100 / 1) 10

/-- RoutingAgent.calculate_reward, lines 353-379: improvement bonus when a
previous snapshot is supplied.  Each relative improvement is 0 when the
previous value is not strictly positive, and each credit is capped at 1. -/
def improvement_reward (metrics prev : NetworkMetrics) : ℝ :=
  0.5 * min (if 0 < prev.effective_throughput * 1000 then
      (metrics.effective_throughput * 1000 - prev.effective_throughput * 1000) /
        (prev.effective_throughput * 1000) else 0) 1 +
  0.3 * min (if 0 < prev.total_latency then
      (prev.total_latency - metrics.total_latency) / prev.total_latency else 0) 1 +
  0.2 * min (if 0 < prev.packet_loss * 100 then
      (prev.packet_loss * 100 - metrics.packet_loss * 100) /
        (prev.packet_loss * 100) else 0) 1

/-- RoutingAgent.calculate_reward (lines 321-397) as a pure function of the
current metrics and the optional previous metrics.  Lines 387-388 add a
flat bonus of 1.0 when throughput (Mbps) > 1.0, latency < 70 and packet
loss (percent) < 2.0; lines 391-392 subtract 2.0 when throughput < 0.1,
latency > 200 or packet loss > 15.0.  The append to reward_history
(line 395) is a side effect modelled separately by stepHistories. -/
def calculate_reward (metrics : NetworkMetrics) (prev : Option NetworkMetrics) : ℝ :=
  let reward :=
    match prev with
    | some pm => base_reward metrics + improvement_reward metrics pm
    | none => base_reward metrics
  let reward2 :=
    if 1 < metrics.effective_throughput * 1000 ∧ metrics.total_latency < 70 ∧
        metrics.packet_loss * 100 < 2 then reward + 1 else reward
  if metrics.effective_throughput * 1000 < 0.1 ∨ 200 < metrics.total_latency ∨
      15 < metrics.packet_loss * 100 then reward2 - 2 else reward2

end

/-- One stored transition: the tuple (state, action, reward, next_state, done)
built at reinforcement_learning.py line 60. -/
structure Experience where
  state : List ℝ
  action : ℕ
  reward : ℝ
  next_state : List ℝ
  done : Bool

/-- ExperienceBuffer (reinforcement_learning.py lines 35-83): a plain list
plus the max_size bound fixed at construction. -/
structure ExperienceBuffer where
  buffer : List Experience
  max_size : ℕ

/-- ExperienceBuffer.__init__ (lines 39-47): empty list. -/
def ExperienceBuffer.empty (max_size : ℕ) : ExperienceBuffer := ⟨[], max_size⟩

/-- ExperienceBuffer.add (lines 49-65): append the new experience; when the
buffer is at capacity, first pop index 0 (modelled by List.drop 1). -/
def ExperienceBuffer.add (b : ExperienceBuffer) (state : List ℝ) (action : ℕ)
    (reward : ℝ) (next_state : List ℝ) (done : Bool) : ExperienceBuffer :=
  let experience : Experience := ⟨state, action, reward, next_state, done⟩
  if b.buffer.length < b.max_size then ⟨b.buffer ++ [experience], b.max_size⟩
  else ⟨b.buffer.drop 1 ++ [experience], b.max_size⟩

/-- ExperienceBuffer.size (lines 81-83): len(self.buffer). -/
def ExperienceBuffer.size (b : ExperienceBuffer) : ℕ := b.buffer.length

/-- A sequence of add calls, folded in order over a list of experiences. -/
def ExperienceBuffer.addAll (b : ExperienceBuffer) (es : List Experience) :
    ExperienceBuffer :=
  es.foldl (fun acc e => acc.add e.state e.action e.reward e.next_state e.done) b

/-- Agent operations that touch the three diagnostic histories.  The
recorded numeric value (max Q-value, fit loss, reward) is carried as the
operation's payload because it is produced by the external function
approximator or the reward computation, not by the history mechanism. -/
inductive AgentOp where
  | chooseExploit : ℝ → AgentOp
  | chooseExplore : AgentOp
  | trainSkip : AgentOp
  | trainFit : ℝ → AgentOp
  | calcReward : ℝ → AgentOp

/-- The three history lists initialised empty in RoutingAgent.__init__
(reinforcement_learning.py lines 136-138). -/
structure AgentHistories where
  loss_history : List ℝ
  reward_history : List ℝ
  q_value_history : List ℝ

/-- RoutingAgent.__init__ lines 136-138: all three histories start empty. -/
def initHistories : AgentHistories := ⟨[], [], []⟩

/-- The effect of one agent operation on the histories: choose_action
appends the max Q-value only on the exploitation path (line 240), train
appends a loss only when a fit happened (line 313), calculate_reward
always appends the reward (line 395).  No operation ever truncates. -/
def stepHistories (h : AgentHistories) : AgentOp → AgentHistories
  | AgentOp.chooseExploit q => { h with q_value_history := h.q_value_history ++ [q] }
  | AgentOp.chooseExplore => h
  | AgentOp.trainSkip => h
  | AgentOp.trainFit l => { h with loss_history := h.loss_history ++ [l] }
  | AgentOp.calcReward r => { h with reward_history := h.reward_history ++ [r] }

/-- Folding a sequence of agent operations over the histories. -/
def runOps (h : AgentHistories) (ops : List AgentOp) : AgentHistories :=
  ops.foldl stepHistories h

/-- Number of fitted training steps in a sequence of operations. -/
def countFit (ops : List AgentOp) : ℕ :=
  ops.countP fun op => match op with | AgentOp.trainFit _ => true | _ => false

/-- Number of calculate_reward calls in a sequence of operations. -/
def countReward (ops : List AgentOp) : ℕ :=
  ops.countP fun op => match op with | AgentOp.calcReward _ => true | _ => false

/-- Number of exploiting choose_action calls in a sequence of operations. -/
def countExploit (ops : List AgentOp) : ℕ :=
  ops.countP fun op => match op with | AgentOp.chooseExploit _ => true | _ => false

/-- Values stored in the parameter dict passed to apply_action; integers
and booleans are the kinds the function reads, otherV stands for any
other Python value (opaque to apply_action, default truthiness). -/
inductive PVal where
  | intV : ℤ → PVal
  | boolV : Bool → PVal
  | otherV : ℕ → PVal
deriving DecidableEq

/-- Python truthiness of a stored value, as used by the not-operator at
lines 425 and 429: ints are truthy iff nonzero, bools are themselves and
other objects default to truthy. -/
def PVal.truthy : PVal → Bool
  | PVal.intV i => decide (i ≠ 0)
  | PVal.boolV b => b
  | PVal.otherV _ => true

/-- The parameter dict, modelled as a partial map from keys to values. -/
def ParamsDict : Type := String → Option PVal

/-- dict.get(key, default) followed by Python truthiness. -/
def getTruthy (d : ParamsDict) (k : String) (dflt : Bool) : Bool :=
  match d k with
  | none => dflt
  | some v => v.truthy

/-- Functional update of one key, modelling new_params[key] = value on the
copy made at line 411. -/
def dictSet (d : ParamsDict) (k : String) (v : PVal) : ParamsDict :=
  fun q => if q = k then some v else d q

/-- The branch dispatch on action["name"] (lines 415-429), for the action
at (non-negative, in-range) position i of the self.actions list
(lines 141-146): 0 increase_mtu (min(mtu + 40, 1500)), 1 decrease_mtu
(max(mtu - 40, 1280)), 2 toggle_split_tunnel (negate
get("direct_tunnel", True)), 3 prioritize_aws (negate
get("prioritize_aws", False)).  Actions 0 and 1 read
current_params["mtu"]: a missing key is a KeyError and a non-numeric
value a TypeError, both modelled as none; a stored Python bool is an int
subtype and participates in arithmetic as 0 or 1. -/
def applyActionByName (i : ℕ) (d : ParamsDict) : Option ParamsDict :=
  match i with
  | 0 => match d "mtu" with
    | some (PVal.intV mv) => some (dictSet d "mtu" (PVal.intV (min (mv + 40) 1500)))
    | some (PVal.boolV bv) =>
        some (dictSet d "mtu" (PVal.intV (min ((if bv then 1 else 0) + 40) 1500)))
    | _ => none
  | 1 => match d "mtu" with
    | some (PVal.intV mv) => some (dictSet d "mtu" (PVal.intV (max (mv - 40) 1280)))
    | some (PVal.boolV bv) =>
        some (dictSet d "mtu" (PVal.intV (max ((if bv then 1 else 0) - 40) 1280)))
    | _ => none
  | 2 => some (dictSet d "direct_tunnel" (PVal.boolV (!(getTruthy d "direct_tunnel" true))))
  | 3 => some (dictSet d "prioritize_aws" (PVal.boolV (!(getTruthy d "prioritize_aws" false))))
  | _ => none

/-- RoutingAgent.apply_action (lines 399-431).  Line 410 indexes the
4-element self.actions list with a Python int, so indices 0..3 select
directly, indices -4..-1 select from the end (Python negative indexing)
and anything else raises IndexError, modelled as none.  The input dict is
not mutated: line 411 copies it and all writes go to the copy. -/
def apply_action (action_idx : ℤ) (current_params : ParamsDict) : Option ParamsDict :=
  if 0 ≤ action_idx ∧ action_idx < 4 then
    applyActionByName action_idx.toNat current_params
  else if -4 ≤ action_idx ∧ action_idx < 0 then
    applyActionByName (action_idx + 4).toNat current_params
  else none

/-- The single dict key an in-range action is allowed to change: actions
0 and 1 target "mtu", action 2 targets "direct_tunnel", action 3 targets
"prioritize_aws". -/
def targetKey (i : ℤ) : String :=
  if i ≤ 1 then "mtu" else if i = 2 then "direct_tunnel" else "prioritize_aws"

noncomputable section

/-- Example parameters: the defaults of the NetworkParameters dataclass. -/
def exampleParams : NetworkParameters :=
  { b_local := 0.0015, b_ec2 := 1, l_propagation := 20, mtu := 1420,
    buffer_size := 1000, packet_size := 1400, congestion_level := 0 }

/-- Default parameters under full congestion (congestion_level = 1). -/
def congestedParams : NetworkParameters :=
  { b_local := 0.0015, b_ec2 := 1, l_propagation := 20, mtu := 1420,
    buffer_size := 1000, packet_size := 1400, congestion_level := 1 }

/-- Default parameters with zero uplink bandwidth. -/
def zeroUplinkParams : NetworkParameters :=
  { b_local := 0, b_ec2 := 1, l_propagation := 20, mtu := 1420,
    buffer_size := 1000, packet_size := 1400, congestion_level := 0 }

/-- A fully congested current configuration sitting at the last grid
point (mtu 1480, buffer 2000, packet_size min(1460,1400) = 1400). -/
def congestedCurrent : NetworkParameters :=
  { b_local := 0.0015, b_ec2 := 1, l_propagation := 20, mtu := 1480,
    buffer_size := 2000, packet_size := 1400, congestion_level := 1 }

/-- Example current metrics for the reward comparison: 2 Mbps, 50 ms,
0.5 percent loss. -/
def exampleMetrics : NetworkMetrics :=
  { effective_throughput := 0.002, total_latency := 50, packet_loss := 0.005,
    queue_length := 0, utilization := 0, score := 0 }

/-- Example previous metrics, worse on all three axes: 1 Mbps, 80 ms,
1 percent loss. -/
def examplePrevMetrics : NetworkMetrics :=
  { effective_throughput := 0.001, total_latency := 80, packet_loss := 0.01,
    queue_length := 0, utilization := 0, score := 0 }

/-- Metrics with throughput 1.2 Mbps, latency 50 ms, packet loss 1
percent: between the code's absolute 1.0 Mbps bonus threshold and the
1.5 Mbps normalization baseline. -/
def midMetrics : NetworkMetrics :=
  { effective_throughput := 0.0012, total_latency := 50, packet_loss := 0.01,
    queue_length := 0, utilization := 0, score := 0 }

end

/-- Example parameter dict holding only an integer mtu entry. -/
def exampleDict : ParamsDict :=
  fun k => if k = "mtu" then some (PVal.intV 1420) else none

/-- Three distinct example transitions for exercising the buffer. -/
def exampleExperiences : List Experience :=
  [⟨[1], 1, 0, [], false⟩, ⟨[2], 2, 0, [], false⟩, ⟨[3], 3, 0, [], true⟩]

/-! Shared lemmas about the performance model. -/

lemma utilization_lt_one (p : NetworkParameters) : utilizationOf p < 1 := by
  unfold utilizationOf
  split
  · norm_num
  · rename_i h
    exact lt_of_not_le h

lemma utilization_nonneg (p : NetworkParameters) (hb : 0 ≤ p.b_local)
    (he : 0 ≤ p.b_ec2) (hp : 0 ≤ p.packet_size) : 0 ≤ utilizationOf p := by
  have harr : 0 ≤ arrival_rate p := by
    unfold arrival_rate packet_size_bits
    have : (0 : ℝ) ≤ (p.packet_size : ℝ) := Int.cast_nonneg.mpr hp
    positivity
  have hserv : 0 ≤ service_rate p := by
    unfold service_rate packet_size_bits
    have : (0 : ℝ) ≤ (p.packet_size : ℝ) := Int.cast_nonneg.mpr hp
    positivity
  unfold utilizationOf
  split
  · norm_num
  · exact div_nonneg harr hserv

lemma service_rate_pos (p : NetworkParameters) (he : 0 < p.b_ec2)
    (hp : 0 < p.packet_size) : 0 < service_rate p := by
  unfold service_rate packet_size_bits
  have h8 : (0 : ℝ) < (p.packet_size : ℝ) := by exact_mod_cast hp
  positivity

lemma queue_length_nonneg (p : NetworkParameters) (hb : 0 ≤ p.b_local)
    (he : 0 ≤ p.b_ec2) (hp : 0 ≤ p.packet_size) : 0 ≤ queue_lengthOf p := by
  unfold queue_lengthOf
  have h1 := utilization_lt_one p
  exact div_nonneg (utilization_nonneg p hb he hp) (by linarith)

lemma queueing_delay_nonneg (p : NetworkParameters) (hb : 0 ≤ p.b_local)
    (he : 0 ≤ p.b_ec2) (hp : 0 ≤ p.packet_size) : 0 ≤ queueing_delay p := by
  unfold queueing_delay service_time_ms
  apply mul_nonneg (queue_length_nonneg p hb he hp)
  have hserv : 0 ≤ service_rate p := by
    unfold service_rate packet_size_bits
    have : (0 : ℝ) ≤ (p.packet_size : ℝ) := Int.cast_nonneg.mpr hp
    positivity
  positivity

lemma transmission_delay_nonneg (p : NetworkParameters) (hm : 0 ≤ p.mtu)
    (hb : 0 ≤ p.b_local) : 0 ≤ transmission_delay p := by
  unfold transmission_delay
  have hm8 : (0 : ℝ) ≤ (p.mtu : ℝ) := Int.cast_nonneg.mpr hm
  positivity

lemma total_latency_nonneg (p : NetworkParameters) (hb : 0 ≤ p.b_local)
    (he : 0 ≤ p.b_ec2) (hp : 0 ≤ p.packet_size) (hm : 0 ≤ p.mtu)
    (hl : 0 ≤ p.l_propagation) : 0 ≤ total_latencyOf p := by
  unfold total_latencyOf
  have h1 := queueing_delay_nonneg p hb he hp
  have h2 := transmission_delay_nonneg p hm hb
  linarith

lemma packet_loss_raw_nonneg (p : NetworkParameters) (hb : 0 ≤ p.b_local)
    (he : 0 ≤ p.b_ec2) (hp : 0 ≤ p.packet_size) : 0 ≤ packet_loss_raw p := by
  unfold packet_loss_raw
  split
  · norm_num
  · split
    · apply mul_nonneg (Real.rpow_nonneg (utilization_nonneg p hb he hp) _)
      have := utilization_lt_one p
      linarith
    · norm_num

lemma packet_lossOf_nonneg (p : NetworkParameters) (hb : 0 ≤ p.b_local)
    (he : 0 ≤ p.b_ec2) (hp : 0 ≤ p.packet_size) : 0 ≤ packet_lossOf p := by
  unfold packet_lossOf
  apply le_min _ zero_le_one
  have h1 := packet_loss_raw_nonneg p hb he hp
  have h2 : (0 : ℝ) ≤ p.congestion_level ^ (2 : ℕ) := sq_nonneg _
  nlinarith

lemma packet_lossOf_le_one (p : NetworkParameters) : packet_lossOf p ≤ 1 :=
  min_le_right _ _

lemma throughput_score_nonneg (p : NetworkParameters) (hb : 0 ≤ p.b_local) :
    0 ≤ throughput_score p := by
  unfold throughput_score
  apply le_min _ zero_le_one
  have h1 := packet_lossOf_le_one p
  have h2 : 0 ≤ effective_throughputOf p := by
    unfold effective_throughputOf
    apply mul_nonneg hb
    linarith
  positivity

lemma throughput_score_le_one (p : NetworkParameters) : throughput_score p ≤ 1 :=
  min_le_right _ _

lemma latency_score_nonneg (p : NetworkParameters) : 0 ≤ latency_score p :=
  le_max_left _ _

lemma latency_score_le_one (p : NetworkParameters) (hL : 0 ≤ total_latencyOf p) :
    latency_score p ≤ 1 := by
  unfold latency_score
  apply max_le zero_le_one
  have : 0 ≤ total_latencyOf p / 150 := by positivity
  linarith

lemma loss_score_le_one (p : NetworkParameters) (hb : 0 ≤ p.b_local)
    (he : 0 ≤ p.b_ec2) (hp : 0 ≤ p.packet_size) : loss_score p ≤ 1 := by
  unfold loss_score
  have h := packet_lossOf_nonneg p hb he hp
  have : 0 ≤ packet_lossOf p / 0.01 := by positivity
  linarith

lemma loss_score_ge (p : NetworkParameters) : -99 ≤ loss_score p := by
  unfold loss_score
  have h := packet_lossOf_le_one p
  have h2 : packet_lossOf p / 0.01 ≤ 100 := by
    rw [div_le_iff₀ (by norm_num : (0 : ℝ) < 0.01)]
    linarith
  linarith

lemma score_bounds (p : NetworkParameters) (hb : 0 ≤ p.b_local)
    (he : 0 < p.b_ec2) (hp : 0 < p.packet_size) (hm : 0 ≤ p.mtu)
    (hl : 0 ≤ p.l_propagation) : -19.8 ≤ scoreOf p ∧ scoreOf p ≤ 1 := by
  have hts0 := throughput_score_nonneg p hb
  have hts1 := throughput_score_le_one p
  have hls0 := latency_score_nonneg p
  have hls1 := latency_score_le_one p
    (total_latency_nonneg p hb he.le hp.le hm hl)
  have hos0 := loss_score_ge p
  have hos1 := loss_score_le_one p hb he.le hp.le
  unfold scoreOf
  constructor <;> linarith

lemma calculate_metricsE_eq_some (p : NetworkParameters) (hb : 0 < p.b_local)
    (he : 0 < p.b_ec2) (hp : 0 < p.packet_size) :
    calculate_metricsE p = some (calculate_metrics p) := by
  have hpsb : packet_size_bits p ≠ 0 := by
    unfold packet_size_bits
    have : (0 : ℝ) < (p.packet_size : ℝ) := by exact_mod_cast hp
    positivity
  have hserv : service_rate p ≠ 0 := ne_of_gt (service_rate_pos p he hp)
  have hutil : 1 - utilizationOf p ≠ 0 := by
    have := utilization_lt_one p
    intro hcon
    linarith
  have hbl : p.b_local * 1e9 ≠ 0 := by positivity
  unfold calculate_metricsE
  rw [if_neg hpsb, if_neg hserv, if_neg hutil, if_neg hbl]

lemma calculate_metricsE_some_inv (p : NetworkParameters) (m : NetworkMetrics)
    (h : calculate_metricsE p = some m) : m = calculate_metrics p := by
  unfold calculate_metricsE at h
  split_ifs at h
  exact (Option.some_inj.mp h).symm

/-! Claim theorems C1, C2, C3. -/

/-- Claim C1 (confirmed): for every parameter input in the valid ranges
(non-negative uplink bandwidth, strictly positive egress bandwidth and
packet size, congestion level in [0,1]) on which calculate_metrics
returns, the returned metrics have packet_loss in [0,1], utilization
strictly below 1 and effective_throughput between 0 and b_local. -/
theorem C1_calculate_metrics_bounds (p : NetworkParameters) (m : NetworkMetrics)
    (hb : 0 ≤ p.b_local) (he : 0 < p.b_ec2) (hp : 0 < p.packet_size)
    (hc0 : 0 ≤ p.congestion_level) (hc1 : p.congestion_level ≤ 1)
    (hm : calculate_metricsE p = some m) :
    0 ≤ m.packet_loss ∧ m.packet_loss ≤ 1 ∧ m.utilization < 1 ∧
      0 ≤ m.effective_throughput ∧ m.effective_throughput ≤ p.b_local := by
  rw [calculate_metricsE_some_inv p m hm]
  refine ⟨?_, ?_, ?_, ?_, ?_⟩
  · exact le_min (le_max_right _ _) zero_le_one
  · exact min_le_right _ _
  · exact utilization_lt_one p
  · exact le_min (le_max_right _ _) hb
  · exact min_le_right _ _

/-- Witness for C1 at the dataclass defaults. -/
theorem C1_witness :
    0 ≤ exampleParams.b_local ∧
      (0 ≤ (calculate_metrics exampleParams).packet_loss ∧
        (calculate_metrics exampleParams).packet_loss ≤ 1 ∧
        (calculate_metrics exampleParams).utilization < 1 ∧
        0 ≤ (calculate_metrics exampleParams).effective_throughput ∧
        (calculate_metrics exampleParams).effective_throughput ≤
          exampleParams.b_local) :=
  ⟨by norm_num [exampleParams],
    C1_calculate_metrics_bounds exampleParams (calculate_metrics exampleParams)
      (by norm_num [exampleParams]) (by norm_num [exampleParams])
      (by norm_num [exampleParams]) (by norm_num [exampleParams])
      (by norm_num [exampleParams])
      (calculate_metricsE_eq_some exampleParams (by norm_num [exampleParams])
        (by norm_num [exampleParams]) (by norm_num [exampleParams]))⟩

/-- Counterexample to claim C2 as stated: zero uplink bandwidth is inside
the claimed valid range, yet calculate_metrics does not return normally
there.  The transmission-delay division at line 121 divides by
b_local * 1e9 = 0, a ZeroDivisionError, modelled by
calculate_metricsE = none. -/
theorem C2_counterexample : calculate_metricsE zeroUplinkParams = none := by
  have hpsb : packet_size_bits zeroUplinkParams ≠ 0 := by
    norm_num [packet_size_bits, zeroUplinkParams]
  have hserv : service_rate zeroUplinkParams ≠ 0 :=
    ne_of_gt (service_rate_pos zeroUplinkParams (by norm_num [zeroUplinkParams])
      (by norm_num [zeroUplinkParams]))
  have hutil : 1 - utilizationOf zeroUplinkParams ≠ 0 := by
    have := utilization_lt_one zeroUplinkParams
    intro hcon
    linarith
  unfold calculate_metricsE
  rw [if_neg hpsb, if_neg hserv, if_neg hutil, if_pos]
  norm_num [zeroUplinkParams]

/-- Claim C2 as amended (the counterexample forces strictly positive
bandwidths): for strictly positive uplink bandwidth, egress bandwidth and
packet size, calculate_metrics returns normally with clamped outputs and
never raises, for every congestion level including the fully congested
buffer congestion_level = 1 (where the effective buffer is 0 and packet
loss is clamped to 1 instead of an error being raised). -/
theorem C2_amended_no_raise (p : NetworkParameters) (hb : 0 < p.b_local)
    (he : 0 < p.b_ec2) (hp : 0 < p.packet_size) :
    calculate_metricsE p = some (calculate_metrics p) :=
  calculate_metricsE_eq_some p hb he hp

/-- Witness for C2 at the fully congested degenerate input. -/
theorem C2_witness :
    0 < congestedParams.b_local ∧ congestedParams.congestion_level = 1 ∧
      calculate_metricsE congestedParams = some (calculate_metrics congestedParams) :=
  ⟨by norm_num [congestedParams], by norm_num [congestedParams],
    C2_amended_no_raise congestedParams (by norm_num [congestedParams])
      (by norm_num [congestedParams]) (by norm_num [congestedParams])⟩

/-! Lemmas for the fully congested configuration. -/

lemma packet_lossOf_eq_one_of_full (p : NetworkParameters)
    (hc : p.congestion_level = 1) : packet_lossOf p = 1 := by
  unfold packet_lossOf packet_loss_raw effective_buffer
  rw [hc]
  rw [if_pos (by norm_num)]
  rw [min_eq_right (by norm_num)]

lemma scoreOf_of_full_congestion (p : NetworkParameters)
    (hc : p.congestion_level = 1) :
    scoreOf p = 0.3 * latency_score p - 19.8 := by
  have hpl := packet_lossOf_eq_one_of_full p hc
  have hth : throughput_score p = 0 := by
    unfold throughput_score effective_throughputOf
    rw [hpl]
    norm_num
  have hos : loss_score p = -99 := by
    unfold loss_score
    rw [hpl]
    norm_num
  unfold scoreOf
  rw [hth, hos]
  ring

lemma scoreOf_le_of_full_congestion (p : NetworkParameters)
    (hc : p.congestion_level = 1) (hb : 0 ≤ p.b_local) (he : 0 ≤ p.b_ec2)
    (hp : 0 ≤ p.packet_size) (hm : 0 ≤ p.mtu) (hl : 0 ≤ p.l_propagation) :
    scoreOf p ≤ -19.5 := by
  rw [scoreOf_of_full_congestion p hc]
  have h1 := latency_score_le_one p (total_latency_nonneg p hb he hp hm hl)
  linarith

/-- Counterexample to claim C3 as stated: at the dataclass defaults under
full congestion (a valid input, on which calculate_metrics returns
normally) the composite score is strictly negative, so it does not lie
in [0,1]; the loss sub-score 1 - packet_loss/0.01 is not clamped below
before weighting. -/
theorem C3_counterexample :
    calculate_metricsE congestedParams = some (calculate_metrics congestedParams) ∧
      (calculate_metrics congestedParams).score < 0 := by
  constructor
  · exact calculate_metricsE_eq_some congestedParams (by norm_num [congestedParams])
      (by norm_num [congestedParams]) (by norm_num [congestedParams])
  · show scoreOf congestedParams < 0
    have h := scoreOf_le_of_full_congestion congestedParams
      (by norm_num [congestedParams]) (by norm_num [congestedParams])
      (by norm_num [congestedParams]) (by norm_num [congestedParams])
      (by norm_num [congestedParams]) (by norm_num [congestedParams])
    linarith

/-- Claim C3 as amended (the counterexample forces dropping the claim that
the loss sub-score is clamped and that the composite lies in [0,1]): for
every valid input the score equals the fixed weighted sum with weights
0.5 / 0.3 / 0.2 of the three normalized sub-scores; the throughput and
latency sub-scores lie in [0,1], but the loss sub-score is only bounded
in [-99,1] because it is not clamped below, so the composite score lies
in [-19.8, 1] rather than [0,1]. -/
theorem C3_amended_score_decomposition (p : NetworkParameters)
    (hb : 0 ≤ p.b_local) (he : 0 < p.b_ec2) (hp : 0 < p.packet_size)
    (hm : 0 ≤ p.mtu) (hl : 0 ≤ p.l_propagation)
    (hc0 : 0 ≤ p.congestion_level) (hc1 : p.congestion_level ≤ 1) :
    (calculate_metrics p).score =
        0.5 * throughput_score p + 0.3 * latency_score p + 0.2 * loss_score p ∧
      0 ≤ throughput_score p ∧ throughput_score p ≤ 1 ∧
      0 ≤ latency_score p ∧ latency_score p ≤ 1 ∧
      -99 ≤ loss_score p ∧ loss_score p ≤ 1 ∧
      -19.8 ≤ (calculate_metrics p).score ∧ (calculate_metrics p).score ≤ 1 := by
  have hsb := score_bounds p hb he hp hm hl
  exact ⟨rfl, throughput_score_nonneg p hb, throughput_score_le_one p,
    latency_score_nonneg p,
    latency_score_le_one p (total_latency_nonneg p hb he.le hp.le hm hl),
    loss_score_ge p, loss_score_le_one p hb he.le hp.le, hsb.1, hsb.2⟩

/-- Witness for C3 at the dataclass defaults. -/
theorem C3_witness :
    0 ≤ exampleParams.b_local ∧
      ((calculate_metrics exampleParams).score =
          0.5 * throughput_score exampleParams + 0.3 * latency_score exampleParams +
            0.2 * loss_score exampleParams ∧
        0 ≤ throughput_score exampleParams ∧ throughput_score exampleParams ≤ 1 ∧
        0 ≤ latency_score exampleParams ∧ latency_score exampleParams ≤ 1 ∧
        -99 ≤ loss_score exampleParams ∧ loss_score exampleParams ≤ 1 ∧
        -19.8 ≤ (calculate_metrics exampleParams).score ∧
        (calculate_metrics exampleParams).score ≤ 1) :=
  ⟨by norm_num [exampleParams],
    C3_amended_score_decomposition exampleParams (by norm_num [exampleParams])
      (by norm_num [exampleParams]) (by norm_num [exampleParams])
      (by norm_num [exampleParams]) (by norm_num [exampleParams])
      (by norm_num [exampleParams]) (by norm_num [exampleParams])⟩

/-! Lemmas for the experience buffer. -/

lemma ExperienceBuffer.add_eq (l : List Experience) (K : ℕ) (e : Experience) :
    ExperienceBuffer.add ⟨l, K⟩ e.state e.action e.reward e.next_state e.done =
      if l.length < K then ⟨l ++ [e], K⟩ else ⟨l.drop 1 ++ [e], K⟩ := rfl

lemma ExperienceBuffer.addAll_cons (b : ExperienceBuffer) (e : Experience)
    (es : List Experience) :
    b.addAll (e :: es) =
      (b.add e.state e.action e.reward e.next_state e.done).addAll es := rfl

lemma addAll_buffer_spec :
    ∀ (es : List Experience) (l : List Experience) (K : ℕ), 1 ≤ K → l.length ≤ K →
      (ExperienceBuffer.addAll ⟨l, K⟩ es).buffer =
        (l ++ es).drop (l.length + es.length - K) ∧
      (ExperienceBuffer.addAll ⟨l, K⟩ es).max_size = K := by
  intro es
  induction es with
  | nil =>
    intro l K hK hl
    constructor
    · simp only [ExperienceBuffer.addAll, List.foldl_nil, List.append_nil,
        List.length_nil, Nat.add_zero]
      rw [Nat.sub_eq_zero_of_le hl, List.drop_zero]
    · rfl
  | cons e es ih =>
    intro l K hK hl
    rw [ExperienceBuffer.addAll_cons, ExperienceBuffer.add_eq]
    by_cases hlt : l.length < K
    · rw [if_pos hlt]
      have hlen1 : (l ++ [e]).length ≤ K := by
        simp only [List.length_append, List.length_cons, List.length_nil]
        omega
      obtain ⟨ih1, ih2⟩ := ih (l ++ [e]) K hK hlen1
      refine ⟨?_, ih2⟩
      rw [ih1]
      have hi : (l ++ [e]).length + es.length - K = l.length + (e :: es).length - K := by
        simp only [List.length_append, List.length_cons, List.length_nil]
        omega
      have hl2 : l ++ [e] ++ es = l ++ e :: es := by
        simp only [List.append_assoc, List.singleton_append]
      rw [hi, hl2]
    · rw [if_neg hlt]
      have hlK : l.length = K := le_antisymm hl (not_lt.mp hlt)
      have hlpos : l ≠ [] := by
        intro hnil
        rw [hnil] at hlK
        simp only [List.length_nil] at hlK
        omega
      obtain ⟨x, t, rfl⟩ := List.exists_cons_of_ne_nil hlpos
      have htK : t.length + 1 = K := by
        simpa using hlK
      have hlen2 : (t ++ [e]).length ≤ K := by
        simp only [List.length_append, List.length_cons, List.length_nil]
        omega
      obtain ⟨ih1, ih2⟩ := ih (t ++ [e]) K hK hlen2
      refine ⟨?_, ih2⟩
      have hbuf : (x :: t).drop 1 = t := rfl
      rw [hbuf, ih1]
      have hidx1 : (t ++ [e]).length + es.length - K = es.length := by
        simp only [List.length_append, List.length_cons, List.length_nil]
        omega
      have hidx2 : (x :: t).length + (e :: es).length - K = es.length + 1 := by
        simp only [List.length_cons]
        omega
      rw [hidx1, hidx2]
      simp only [List.append_assoc, List.singleton_append, List.cons_append,
        List.drop_succ_cons, List.nil_append]

/-- Claim C4 (confirmed): for every capacity K at least 1 and every
sequence of K + m adds with m > 0 into an empty buffer of max_size K,
size() returns K and the buffer holds exactly the K most recently added
transitions in insertion order; the oldest m transitions have been
evicted purely first-in-first-out. -/
theorem C4_fifo_eviction (K m : ℕ) (es : List Experience) (hK : 1 ≤ K)
    (hlen : es.length = K + m) (hm : 0 < m) :
    ((ExperienceBuffer.empty K).addAll es).size = K ∧
      ((ExperienceBuffer.empty K).addAll es).buffer = es.drop m := by
  have h := addAll_buffer_spec es [] K hK (by simp)
  have hbuf : ((ExperienceBuffer.empty K).addAll es).buffer = es.drop m := by
    show (ExperienceBuffer.addAll ⟨[], K⟩ es).buffer = es.drop m
    rw [h.1]
    simp only [List.nil_append, List.length_nil, Nat.zero_add]
    congr 1
    omega
  refine ⟨?_, hbuf⟩
  show ((ExperienceBuffer.empty K).addAll es).buffer.length = K
  rw [hbuf, List.length_drop, hlen]
  omega

/-- Witness for C4: capacity 2, three adds, the first transition evicted. -/
theorem C4_witness :
    1 ≤ 2 ∧ exampleExperiences.length = 2 + 1 ∧ 0 < 1 ∧
      ((ExperienceBuffer.empty 2).addAll exampleExperiences).size = 2 ∧
      ((ExperienceBuffer.empty 2).addAll exampleExperiences).buffer =
        exampleExperiences.drop 1 :=
  ⟨by norm_num, rfl, by norm_num,
    (C4_fifo_eviction 2 1 exampleExperiences (by norm_num) rfl (by norm_num)).1,
    (C4_fifo_eviction 2 1 exampleExperiences (by norm_num) rfl (by norm_num)).2⟩

/-! Lemmas for the diagnostic histories. -/

lemma runOps_lengths (ops : List AgentOp) :
    ∀ h0 : AgentHistories,
      (runOps h0 ops).loss_history.length =
          h0.loss_history.length + countFit ops ∧
        (runOps h0 ops).reward_history.length =
          h0.reward_history.length + countReward ops ∧
        (runOps h0 ops).q_value_history.length =
          h0.q_value_history.length + countExploit ops := by
  induction ops with
  | nil =>
    intro h0
    simp [runOps, countFit, countReward, countExploit]
  | cons op ops ih =>
    intro h0
    have h := ih (stepHistories h0 op)
    have hrun : runOps h0 (op :: ops) = runOps (stepHistories h0 op) ops := rfl
    rw [hrun]
    cases op <;>
      simp [stepHistories, countFit, countReward, countExploit,
        List.countP_cons] at h ⊢ <;>
      omega

/-- Claim C8 as amended (the counterexample shows the histories are never
truncated): each diagnostic history grows by exactly one entry per
corresponding operation, loss_history per fitted train step,
reward_history per calculate_reward call and q_value_history per
exploiting choose_action call, and no agent operation ever shortens
them, so their lengths are unbounded; the 100-entry window exists only
in the persisted metadata and the diagnostics averages. -/
theorem C8_amended_history_growth (ops : List AgentOp) (h0 : AgentHistories) :
    (runOps h0 ops).loss_history.length = h0.loss_history.length + countFit ops ∧
      (runOps h0 ops).reward_history.length =
        h0.reward_history.length + countReward ops ∧
      (runOps h0 ops).q_value_history.length =
        h0.q_value_history.length + countExploit ops :=
  runOps_lengths ops h0

lemma runOps_replicate_reward (n : ℕ) :
    ∀ h0 : AgentHistories,
      (runOps h0 (List.replicate n (AgentOp.calcReward 0))).reward_history.length =
        h0.reward_history.length + n := by
  induction n with
  | zero =>
    intro h0
    simp [runOps]
  | succ n ih =>
    intro h0
    rw [List.replicate_succ]
    have hrun : runOps h0 (AgentOp.calcReward 0 :: List.replicate n (AgentOp.calcReward 0)) =
        runOps (stepHistories h0 (AgentOp.calcReward 0)) (List.replicate n (AgentOp.calcReward 0)) := rfl
    rw [hrun, ih]
    simp only [stepHistories, List.length_append, List.length_cons, List.length_nil]
    omega

/-- Counterexample to claim C8 as stated: the only recent window in the
code is the 100-entry tail used for saved metadata and diagnostics, yet
after 101 reward computations the reward history holds 101 entries, and
in general no fixed bound holds because every operation appends without
truncation. -/
theorem C8_counterexample :
    100 <
      ((runOps initHistories
          (List.replicate 101 (AgentOp.calcReward 0))).reward_history).length := by
  rw [runOps_replicate_reward 101 initHistories]
  norm_num [initHistories]

/-! Claims C6 and C7 about the reward function. -/

lemma improvement_reward_pos (m p : NetworkMetrics)
    (ht : p.effective_throughput < m.effective_throughput)
    (hl : m.total_latency < p.total_latency)
    (hpl : m.packet_loss < p.packet_loss)
    (hpt : 0 < p.effective_throughput)
    (hplat : 0 < p.total_latency)
    (hppl : 0 < p.packet_loss) : 0 < improvement_reward m p := by
  have hptm : 0 < p.effective_throughput * 1000 := by positivity
  have hpplm : 0 < p.packet_loss * 100 := by positivity
  unfold improvement_reward
  rw [if_pos hptm, if_pos hplat, if_pos hpplm]
  have h1 : 0 < min ((m.effective_throughput * 1000 - p.effective_throughput * 1000) /
      (p.effective_throughput * 1000)) 1 := by
    apply lt_min _ one_pos
    apply div_pos _ hptm
    nlinarith
  have h2 : 0 < min ((p.total_latency - m.total_latency) / p.total_latency) 1 := by
    apply lt_min _ one_pos
    apply div_pos _ hplat
    linarith
  have h3 : 0 < min ((p.packet_loss * 100 - m.packet_loss * 100) /
      (p.packet_loss * 100)) 1 := by
    apply lt_min _ one_pos
    apply div_pos _ hpplm
    nlinarith
  linarith

/-- Claim C6 (confirmed): whenever the current metrics strictly improve on
a previous snapshot on all three axes (throughput up, latency down,
packet loss down, all previous values strictly positive), the reward
computed against that snapshot is strictly greater than the reward
computed with no previous snapshot for the same current metrics. -/
theorem C6_improvement_strictly_raises_reward (m p : NetworkMetrics)
    (ht : p.effective_throughput < m.effective_throughput)
    (hl : m.total_latency < p.total_latency)
    (hpl : m.packet_loss < p.packet_loss)
    (hpt : 0 < p.effective_throughput)
    (hplat : 0 < p.total_latency)
    (hppl : 0 < p.packet_loss) :
    calculate_reward m none < calculate_reward m (some p) := by
  have himpr := improvement_reward_pos m p ht hl hpl hpt hplat hppl
  unfold calculate_reward
  split_ifs <;> simp only [] <;> linarith

/-- Witness for C6 on concrete metric snapshots. -/
theorem C6_witness :
    examplePrevMetrics.effective_throughput < exampleMetrics.effective_throughput ∧
      exampleMetrics.total_latency < examplePrevMetrics.total_latency ∧
      exampleMetrics.packet_loss < examplePrevMetrics.packet_loss ∧
      0 < examplePrevMetrics.effective_throughput ∧
      calculate_reward exampleMetrics none <
        calculate_reward exampleMetrics (some examplePrevMetrics) :=
  ⟨by norm_num [exampleMetrics, examplePrevMetrics],
    by norm_num [exampleMetrics, examplePrevMetrics],
    by norm_num [exampleMetrics, examplePrevMetrics],
    by norm_num [examplePrevMetrics],
    C6_improvement_strictly_raises_reward exampleMetrics examplePrevMetrics
      (by norm_num [exampleMetrics, examplePrevMetrics])
      (by norm_num [exampleMetrics, examplePrevMetrics])
      (by norm_num [exampleMetrics, examplePrevMetrics])
      (by norm_num [examplePrevMetrics])
      (by norm_num [examplePrevMetrics])
      (by norm_num [examplePrevMetrics])⟩

/-- Counterexample to claim C7 as stated: the flat bonus is gated on the
absolute threshold throughput > 1.0 Mbps, not on 1 x the 1.5 Mbps
normalization baseline.  At 1.2 Mbps (latency 50 ms, loss 1 percent) the
code adds the +1.0 bonus even though throughput does not exceed 1.5
Mbps, so the claimed trigger condition is false while the bonus fires. -/
theorem C7_counterexample :
    calculate_reward midMetrics none = base_reward midMetrics + 1 ∧
      ¬(1.5 < midMetrics.effective_throughput * 1000) := by
  constructor
  · unfold calculate_reward
    rw [if_neg (by norm_num [midMetrics]), if_pos (by norm_num [midMetrics])]
  · norm_num [midMetrics]

/-- Claim C7 as amended (the counterexample forces the absolute
thresholds): calculate_reward adds the flat +1.0 bonus exactly when
throughput exceeds the absolute 1.0 Mbps (latency below 70 ms and packet
loss below 2 percent simultaneously), and subtracts the flat 2.0 penalty
exactly when throughput is below the absolute 0.1 Mbps, latency exceeds
200 ms, or packet loss exceeds 15 percent; the thresholds are absolute
Mbps values, not multiples of the 1.5 Mbps normalization baseline. -/
theorem C7_amended_flat_adjustments (m : NetworkMetrics) (prev : Option NetworkMetrics) :
    calculate_reward m prev =
      (match prev with
        | some pm => base_reward m + improvement_reward m pm
        | none => base_reward m) +
      (if 1 < m.effective_throughput * 1000 ∧ m.total_latency < 70 ∧
          m.packet_loss * 100 < 2 then 1 else 0) -
      (if m.effective_throughput * 1000 < 0.1 ∨ 200 < m.total_latency ∨
          15 < m.packet_loss * 100 then 2 else 0) := by
  cases prev <;>
    · unfold calculate_reward
      split_ifs <;> ring

/-! Lemmas for the grid search (claim C5). -/

lemma calculate_metrics_score (p : NetworkParameters) :
    (calculate_metrics p).score = scoreOf p := rfl

lemma gridFold_const (cur : NetworkParameters) :
    ∀ (l : List (ℤ × ℤ)) (b : ℝ) (o : Option (NetworkParameters × NetworkMetrics)),
      (∀ mb ∈ l, scoreOf (testParams cur mb.1 mb.2) ≤ b) →
      l.foldl (gridStep cur) (b, o) = (b, o) := by
  intro l
  induction l with
  | nil => intro b o _; rfl
  | cons mb l ih =>
    intro b o h
    have hmb : (calculate_metrics (testParams cur mb.1 mb.2)).score ≤ b :=
      h mb (List.mem_cons_self mb l)
    have hstep : gridStep cur (b, o) mb = (b, o) := by
      unfold gridStep
      rw [if_neg (not_lt.mpr hmb)]
    rw [List.foldl_cons, hstep]
    exact ih b o fun x hx => h x (List.mem_cons_of_mem mb hx)

lemma gridFold_spec (cur : NetworkParameters) :
    ∀ (l : List (ℤ × ℤ)) (b : ℝ) (o : Option (NetworkParameters × NetworkMetrics)),
      (∀ pm, o = some pm → pm.2.score = b) →
      (∀ pm, (l.foldl (gridStep cur) (b, o)).2 = some pm →
          pm.2.score = (l.foldl (gridStep cur) (b, o)).1) ∧
        ((l.foldl (gridStep cur) (b, o)).2 = none →
          (l.foldl (gridStep cur) (b, o)).1 = b ∧ o = none) ∧
        b ≤ (l.foldl (gridStep cur) (b, o)).1 ∧
        ∀ mb ∈ l, scoreOf (testParams cur mb.1 mb.2) ≤
          (l.foldl (gridStep cur) (b, o)).1 := by
  intro l
  induction l with
  | nil =>
    intro b o ho
    refine ⟨?_, ?_, le_refl b, ?_⟩
    · exact ho
    · intro h
      exact ⟨rfl, h⟩
    · intro mb hmb
      exact absurd hmb (List.not_mem_nil mb)
  | cons mb l ih =>
    intro b o ho
    rw [List.foldl_cons]
    by_cases hlt : b < (calculate_metrics (testParams cur mb.1 mb.2)).score
    · have hstep : gridStep cur (b, o) mb =
          ((calculate_metrics (testParams cur mb.1 mb.2)).score,
            some (testParams cur mb.1 mb.2,
              calculate_metrics (testParams cur mb.1 mb.2))) := by
        unfold gridStep
        rw [if_pos hlt]
      rw [hstep]
      obtain ⟨s1, s2, s3, s4⟩ :=
        ih (calculate_metrics (testParams cur mb.1 mb.2)).score
          (some (testParams cur mb.1 mb.2,
            calculate_metrics (testParams cur mb.1 mb.2)))
          (fun pm hpm => by rw [← Option.some_inj.mp hpm])
      refine ⟨s1, ?_, le_trans (le_of_lt hlt) s3, ?_⟩
      · intro hnone
        obtain ⟨_, h2⟩ := s2 hnone
        simp at h2
      · intro x hx
        rcases List.mem_cons.mp hx with hx1 | hx2
        · rw [hx1]
          exact s3
        · exact s4 x hx2
    · have hstep : gridStep cur (b, o) mb = (b, o) := by
        unfold gridStep
        rw [if_neg hlt]
      rw [hstep]
      obtain ⟨s1, s2, s3, s4⟩ := ih b o ho
      refine ⟨s1, s2, s3, ?_⟩
      intro x hx
      rcases List.mem_cons.mp hx with hx1 | hx2
      · rw [hx1]
        exact le_trans (not_lt.mp hlt) s3
      · exact s4 x hx2

lemma testParams_self (cur : NetworkParameters)
    (hps : cur.packet_size = min (cur.mtu - 20) 1400) :
    testParams cur cur.mtu cur.buffer_size = cur := by
  cases cur with
  | mk a b c d e f g =>
    simp only [testParams, NetworkParameters.mk.injEq, and_true, true_and,
      eq_self_iff_true] at hps ⊢
    exact hps.symm

lemma mem_gridPairs (mtu buf : ℤ) (hm : mtu ∈ mtu_values)
    (hb : buf ∈ buffer_sizes) : (mtu, buf) ∈ gridPairs := by
  unfold gridPairs
  simp only [List.mem_flatMap, List.mem_map]
  exact ⟨mtu, hm, buf, hb, rfl⟩

lemma utilizationOf_congestedCurrent :
    utilizationOf congestedCurrent = 3 / 2000 := by
  have hcond : ¬(1 ≤ arrival_rate congestedCurrent / service_rate congestedCurrent) := by
    unfold arrival_rate service_rate packet_size_bits
    norm_num [congestedCurrent]
  unfold utilizationOf
  rw [if_neg hcond]
  unfold arrival_rate service_rate packet_size_bits
  norm_num [congestedCurrent]

lemma utilizationOf_congestedTest :
    utilizationOf (testParams congestedCurrent 1280 100) = 3 / 2000 := by
  have hcond : ¬(1 ≤ arrival_rate (testParams congestedCurrent 1280 100) /
      service_rate (testParams congestedCurrent 1280 100)) := by
    unfold arrival_rate service_rate packet_size_bits
    norm_num [testParams, congestedCurrent]
  unfold utilizationOf
  rw [if_neg hcond]
  unfold arrival_rate service_rate packet_size_bits
  norm_num [testParams, congestedCurrent]

lemma total_latency_congested_comparison :
    total_latencyOf (testParams congestedCurrent 1280 100) <
        total_latencyOf congestedCurrent ∧
      total_latencyOf congestedCurrent ≤ 150 := by
  have h1 : total_latencyOf congestedCurrent =
      20 + (3 / 2000) / (1 - 3 / 2000) * (1000 / (1 * 1e9 / (1400 * 8))) + 1 +
        1480 * 8 / (0.0015 * 1e9) * 1000 := by
    unfold total_latencyOf queueing_delay queue_lengthOf service_time_ms
      transmission_delay service_rate packet_size_bits
    rw [utilizationOf_congestedCurrent]
    norm_num [congestedCurrent]
  have h2 : total_latencyOf (testParams congestedCurrent 1280 100) =
      20 + (3 / 2000) / (1 - 3 / 2000) * (1000 / (1 * 1e9 / (1260 * 8))) + 1 +
        1280 * 8 / (0.0015 * 1e9) * 1000 := by
    unfold total_latencyOf queueing_delay queue_lengthOf service_time_ms
      transmission_delay service_rate packet_size_bits
    rw [utilizationOf_congestedTest]
    norm_num [testParams, congestedCurrent]
  rw [h1, h2]
  norm_num

/-- Counterexample to claim C5 as stated: under full congestion every grid
point scores at most -19.5, so no candidate ever beats the -1 sentinel
and optimize_parameters falls back to the current configuration (line
218-221) instead of returning the maximum-score grid combination.  With
the current configuration at the last grid point (mtu 1480, buffer
2000), the first grid point (mtu 1280, buffer 100) scores strictly
higher than the returned configuration, so the returned result is not a
maximum-score combination. -/
theorem C5_counterexample :
    ((1280 : ℤ), (100 : ℤ)) ∈ gridPairs ∧
      (optimize_parameters congestedCurrent).2.score <
        (calculate_metrics (testParams congestedCurrent 1280 100)).score := by
  have hall : ∀ mb ∈ gridPairs,
      scoreOf (testParams congestedCurrent mb.1 mb.2) ≤ -1 := by
    intro mb hmb
    have hbounds : ∀ x ∈ gridPairs, 0 ≤ x.1 ∧ 0 < min (x.1 - 20) (1400 : ℤ) := by
      decide
    obtain ⟨hb1, hb2⟩ := hbounds mb hmb
    have h := scoreOf_le_of_full_congestion (testParams congestedCurrent mb.1 mb.2)
      rfl (by norm_num [testParams, congestedCurrent])
      (by norm_num [testParams, congestedCurrent])
      (by simp only [testParams]; exact hb2.le)
      (by simp only [testParams]; exact hb1)
      (by norm_num [testParams, congestedCurrent])
    linarith
  have hfold : gridPairs.foldl (gridStep congestedCurrent) (-1, none) = (-1, none) :=
    gridFold_const congestedCurrent gridPairs (-1) none hall
  have hopt : optimize_parameters congestedCurrent =
      (congestedCurrent, calculate_metrics congestedCurrent) := by
    unfold optimize_parameters
    rw [hfold]
  refine ⟨by decide, ?_⟩
  rw [hopt]
  rw [calculate_metrics_score, calculate_metrics_score]
  rw [scoreOf_of_full_congestion congestedCurrent rfl,
    scoreOf_of_full_congestion (testParams congestedCurrent 1280 100) rfl]
  obtain ⟨hlt, hle⟩ := total_latency_congested_comparison
  have hls1 : latency_score congestedCurrent =
      1 - total_latencyOf congestedCurrent / 150 := by
    unfold latency_score
    apply max_eq_right
    have : total_latencyOf congestedCurrent / 150 ≤ 1 := by
      rw [div_le_one (by norm_num : (0 : ℝ) < 150)]
      exact hle
    linarith
  have hls2 : latency_score (testParams congestedCurrent 1280 100) =
      1 - total_latencyOf (testParams congestedCurrent 1280 100) / 150 := by
    unfold latency_score
    apply max_eq_right
    have hle2 : total_latencyOf (testParams congestedCurrent 1280 100) / 150 ≤ 1 := by
      rw [div_le_one (by norm_num : (0 : ℝ) < 150)]
      linarith
    linarith
  rw [hls1, hls2]
  linarith

/-- Claim C5 as amended (the counterexample forces an exception for the
degenerate case in which every grid score is at most the -1 sentinel):
optimize_parameters evaluates the full mtu x buffer grid in
deterministic order; whenever some grid combination scores strictly
above -1 the returned metrics score is the maximum over all such
combinations (first-encountered on ties), and otherwise the current
configuration and its metrics are returned unchanged.  In either case,
whenever the current configuration lies in the grid (with its
packet_size equal to min(mtu - 20, 1400)), the returned score is never
strictly below the current configuration's score. -/
theorem C5_amended_grid_search_dominates (cur : NetworkParameters)
    (hm : cur.mtu ∈ mtu_values) (hb : cur.buffer_size ∈ buffer_sizes)
    (hps : cur.packet_size = min (cur.mtu - 20) 1400) :
    (calculate_metrics cur).score ≤ (optimize_parameters cur).2.score ∧
      ∀ mb ∈ gridPairs,
        -1 < (calculate_metrics (testParams cur mb.1 mb.2)).score →
        (calculate_metrics (testParams cur mb.1 mb.2)).score ≤
          (optimize_parameters cur).2.score := by
  obtain ⟨s1, s2, s3, s4⟩ :=
    gridFold_spec cur gridPairs (-1) none (fun pm h => by simp at h)
  have hmem : (cur.mtu, cur.buffer_size) ∈ gridPairs :=
    mem_gridPairs cur.mtu cur.buffer_size hm hb
  have hcur : scoreOf (testParams cur cur.mtu cur.buffer_size) ≤
      (gridPairs.foldl (gridStep cur) (-1, none)).1 :=
    s4 (cur.mtu, cur.buffer_size) hmem
  rw [testParams_self cur hps] at hcur
  cases hfold : (gridPairs.foldl (gridStep cur) (-1, none)).2 with
  | none =>
    have hopt : optimize_parameters cur = (cur, calculate_metrics cur) := by
      unfold optimize_parameters
      rw [hfold]
    rw [hopt]
    refine ⟨le_refl _, ?_⟩
    intro mb hmb hgt
    obtain ⟨h1, _⟩ := s2 hfold
    have hle := s4 mb hmb
    rw [h1] at hle
    rw [calculate_metrics_score] at hgt
    linarith
  | some pm =>
    have hopt : optimize_parameters cur = pm := by
      unfold optimize_parameters
      rw [hfold]
    rw [hopt]
    have hsc : pm.2.score = (gridPairs.foldl (gridStep cur) (-1, none)).1 :=
      s1 pm hfold
    refine ⟨?_, ?_⟩
    · rw [calculate_metrics_score, hsc]
      exact hcur
    · intro mb hmb _
      rw [calculate_metrics_score, hsc]
      exact s4 mb hmb

/-- Witness for C5 at the dataclass defaults, which sit in the grid. -/
theorem C5_witness :
    exampleParams.mtu ∈ mtu_values ∧ exampleParams.buffer_size ∈ buffer_sizes ∧
      exampleParams.packet_size = min (exampleParams.mtu - 20) 1400 ∧
      (calculate_metrics exampleParams).score ≤
        (optimize_parameters exampleParams).2.score :=
  ⟨by decide, by decide, by decide,
    (C5_amended_grid_search_dominates exampleParams (by decide) (by decide)
      (by decide)).1⟩

/-! Claims C9 and C10 about apply_action. -/

/-- Counterexample to claim C9 as stated: the action index -1 lies outside
the action set {0,1,2,3}, yet apply_action does not fail: Python
negative indexing on the 4-element actions list makes index -1 select
the prioritize_aws action, which is silently applied (here toggling the
absent prioritize_aws flag to True). -/
theorem C9_counterexample :
    ¬(0 ≤ (-1 : ℤ)) ∧
      apply_action (-1) exampleDict =
        some (dictSet exampleDict "prioritize_aws" (PVal.boolV true)) := by
  constructor
  · decide
  · rfl

/-- Claim C9 as amended (the counterexample forces shrinking the fatal
range to account for Python negative indexing): for every action index
outside the interval [-4, 3], apply_action raises IndexError (a fatal
error, modelled as none) and applies no parameter mutation; indices
-4..-1 alias actions 0..3 instead of failing. -/
theorem C9_amended_out_of_range_fatal (i : ℤ) (d : ParamsDict)
    (h : i < -4 ∨ 3 < i) : apply_action i d = none := by
  have h1 : ¬(0 ≤ i ∧ i < 4) := by omega
  have h2 : ¬(-4 ≤ i ∧ i < 0) := by omega
  unfold apply_action
  rw [if_neg h1, if_neg h2]

/-- Witness for C9 at index 4. -/
theorem C9_witness :
    ((4 : ℤ) < -4 ∨ 3 < (4 : ℤ)) ∧ apply_action 4 exampleDict = none :=
  ⟨Or.inr (by norm_num),
    C9_amended_out_of_range_fatal 4 exampleDict (Or.inr (by norm_num))⟩

/-- Claim C10 (confirmed): for every action index in {0,1,2,3} and every
parameter dict with an integer mtu entry, apply_action succeeds and the
returned dict agrees with the input dict on every key other than the
single field targeted by the action (mtu for actions 0 and 1,
direct_tunnel for action 2, prioritize_aws for action 3).  The input
dict itself is untouched: line 411 copies it before any write, which the
embedding reflects by building a new map. -/
theorem C10_apply_action_frame (i : ℤ) (d : ParamsDict) (n : ℤ)
    (h0 : 0 ≤ i) (h3 : i ≤ 3) (hmtu : d "mtu" = some (PVal.intV n)) :
    ∃ d2, apply_action i d = some d2 ∧ ∀ k, k ≠ targetKey i → d2 k = d k := by
  have hrange : 0 ≤ i ∧ i < 4 := ⟨h0, by omega⟩
  unfold apply_action
  rw [if_pos hrange]
  interval_cases i
  · refine ⟨dictSet d "mtu" (PVal.intV (min (n + 40) 1500)), ?_, ?_⟩
    · simp only [Int.toNat_zero, applyActionByName, hmtu]
    · intro k hk
      have htk : targetKey 0 = "mtu" := rfl
      rw [htk] at hk
      simp only [dictSet, if_neg hk]
  · refine ⟨dictSet d "mtu" (PVal.intV (max (n - 40) 1280)), ?_, ?_⟩
    · simp only [Int.toNat_one, applyActionByName, hmtu]
    · intro k hk
      have htk : targetKey 1 = "mtu" := rfl
      rw [htk] at hk
      simp only [dictSet, if_neg hk]
  · refine ⟨dictSet d "direct_tunnel"
        (PVal.boolV (!(getTruthy d "direct_tunnel" true))), rfl, ?_⟩
    intro k hk
    have htk : targetKey 2 = "direct_tunnel" := rfl
    rw [htk] at hk
    simp only [dictSet, if_neg hk]
  · refine ⟨dictSet d "prioritize_aws"
        (PVal.boolV (!(getTruthy d "prioritize_aws" false))), rfl, ?_⟩
    intro k hk
    have htk : targetKey 3 = "prioritize_aws" := rfl
    rw [htk] at hk
    simp only [dictSet, if_neg hk]

/-- Witness for C10 at action 0 on the example dict. -/
theorem C10_witness :
    (0 : ℤ) ≤ 0 ∧ (0 : ℤ) ≤ 3 ∧ exampleDict "mtu" = some (PVal.intV 1420) ∧
      ∃ d2, apply_action 0 exampleDict = some d2 ∧
        ∀ k, k ≠ targetKey 0 → d2 k = exampleDict k :=
  ⟨le_refl 0, by norm_num, rfl,
    C10_apply_action_frame 0 exampleDict 1420 (le_refl 0) (by norm_num) rfl⟩

end Tunneling
